import Mathlib

/-!
Verification of the tcx_compare repository (src/analyze.py and
src/generate_synthetic_tcx.py) against its natural-language specification.

Shallow embedding conventions:
* timestamps are modelled as `Int` (seconds); Python floats as `ℚ`;
* `math.sin` is modelled by an abstract function parameter `sn : ℚ → ℚ`
  (the same fixed library function is passed everywhere, so every statement
  quantifies over it);
* `math.sqrt (1 - 0.7^2)` is likewise an abstract constant parameter `sq`;
* the global pseudo-random generator is modelled by explicit draw streams,
  one per kind of primitive draw (`random.random`, `random.randint`,
  `random.gauss`), consumed through explicit cursors.  Fixing the seed in
  Python fixes all these streams, so "two runs with the same seed" is
  modelled as two evaluations with the same streams;
* `datetime.now()` (used by `generate_true_heart_rate` for the start time)
  is modelled as an explicit `now : Int` parameter: each real run gets its
  own wall-clock value;
* `random.randint(1, m)` raises `ValueError` when `m < 1`; fallible code is
  modelled with `Except`.
-/

/-- Python's `max(lo, min(hi, x))` clamp used throughout the generator. -/
def clampQ (lo hi x : ℚ) : ℚ := max lo (min hi x)

/-! ## analyze.py: data model -/

/-- One record of `heart_rate_data` built in `read_tcx_file` (analyze.py
lines 42-49): rows lacking a heart-rate value are never appended, so
`heart_rate` is total here while the auxiliary fields stay optional. -/
structure Trackpoint where
  timestamp : Int
  heart_rate : ℚ
  latitude : Option ℚ
  longitude : Option ℚ
  altitude : Option ℚ
  distance : Option ℚ
deriving DecidableEq, Repr

/-- One row of the canonical dataframe produced by the sort/groupby/agg step
of `read_tcx_file` (analyze.py lines 52-64). -/
structure CanonRow where
  timestamp : Int
  heart_rate : ℚ
  latitude : Option ℚ
  longitude : Option ℚ
  altitude : Option ℚ
  distance : Option ℚ
deriving DecidableEq, Repr

/-- Sort key of `df.sort_values('timestamp')`. -/
def byTs (a b : Trackpoint) : Prop := a.timestamp ≤ b.timestamp

instance : DecidableRel byTs := fun a b => Int.decLe a.timestamp b.timestamp

instance : IsTotal Trackpoint byTs := ⟨fun a b => Int.le_total a.timestamp b.timestamp⟩

instance : IsTrans Trackpoint byTs := ⟨fun _ _ _ h h' => le_trans h h'⟩

/-- pandas `GroupBy.first`: the first non-null value of the column within the
group, null when the whole column is null in the group. -/
def firstSome (l : List (Option ℚ)) : Option ℚ := (l.filterMap id).head?

/-- The `agg` dictionary of `read_tcx_file` applied to one timestamp group:
`heart_rate` is averaged, each auxiliary column takes its first non-null
value in group order. -/
def aggGroup (t : Int) (g : List Trackpoint) : CanonRow where
  timestamp := t
  heart_rate := (g.map (·.heart_rate)).sum / (g.length : ℚ)
  latitude := firstSome (g.map (·.latitude))
  longitude := firstSome (g.map (·.longitude))
  altitude := firstSome (g.map (·.altitude))
  distance := firstSome (g.map (·.distance))

/-- The sort-then-group canonicalization step of `read_tcx_file` (analyze.py
lines 52-64): `df.sort_values('timestamp')` followed by
`df.groupby('timestamp').agg(...)`.  pandas `groupby` (with its default
`sort=True`) keys the groups by the distinct timestamp values in ascending
order — on the sorted frame these are `(s.map timestamp).dedup` — and each
group contains every row carrying that timestamp, in frame order.  The sort
is modelled as a stable sort (Python/numpy use insertion sort on the small
tied runs relevant here). -/
def canonicalize (l : List Trackpoint) : List CanonRow :=
  let s := List.insertionSort byTs l
  ((s.map (·.timestamp)).dedup).map
    (fun t => aggGroup t (s.filter (fun r => r.timestamp == t)))

/-- Reading a canonical row back as a raw trackpoint (the shapes coincide). -/
def CanonRow.asTrackpoint (c : CanonRow) : Trackpoint :=
  ⟨c.timestamp, c.heart_rate, c.latitude, c.longitude, c.altitude, c.distance⟩

/-- The group keys of the canonicalization step: the distinct timestamps in
ascending order. -/
def canonKeys (l : List Trackpoint) : List Int :=
  ((List.insertionSort byTs l).map (·.timestamp)).dedup

/-- All members of `l` carrying timestamp `t`, in `l` order. -/
def groupAt (l : List Trackpoint) (t : Int) : List Trackpoint :=
  l.filter (fun r => r.timestamp == t)

/-- Arithmetic mean of the heart rates of the trackpoints of `l` at
timestamp `t`. -/
def meanHrAt (l : List Trackpoint) (t : Int) : ℚ :=
  ((groupAt l t).map (·.heart_rate)).sum / ((groupAt l t).length : ℚ)

/-! ## analyze.py: Reconciler -/

/-- One row of the merged dataframe of `calculate_differences` (analyze.py
lines 130-144). -/
structure DiffRec where
  timestamp : Int
  heart_rate_device1 : ℚ
  heart_rate_device2 : ℚ
  heart_rate_difference : ℚ
deriving DecidableEq, Repr

/-- The row `pd.merge` forms from a matching pair, with the
`heart_rate_difference` column added on line 142. -/
def mkDiff (a b : CanonRow) : DiffRec :=
  ⟨a.timestamp, a.heart_rate, b.heart_rate, a.heart_rate - b.heart_rate⟩

/-- The difference row a swapped-argument reconciliation produces from the
same matching pair: devices exchanged, difference negated. -/
def swapDiff (d : DiffRec) : DiffRec :=
  ⟨d.timestamp, d.heart_rate_device2, d.heart_rate_device1,
   d.heart_rate_device2 - d.heart_rate_device1⟩

/-- `pd.merge(d1, d2, on='timestamp')` (inner join): left rows in order,
each paired with every right row of equal timestamp, in right order. -/
def mergeDiffs (d1 d2 : List CanonRow) : List DiffRec :=
  d1.flatMap (fun a =>
    (d2.filter (fun b => b.timestamp == a.timestamp)).map (fun b => mkDiff a b))

/-- `calculate_differences` (analyze.py lines 124-146): empty inputs (and an
empty join) yield an empty dataframe. -/
def calculate_differences (d1 d2 : List CanonRow) : List DiffRec :=
  if d1.isEmpty || d2.isEmpty then [] else mergeDiffs d1 d2

/-- The per-device entry of the `stats` dictionary (analyze.py lines
154-168). -/
structure DeviceStats where
  min_hr : ℚ
  avg_hr : ℚ
  max_hr : ℚ
  count : Nat
deriving DecidableEq, Repr

/-- The `difference` entry of the `stats` dictionary (analyze.py lines
173-179). -/
structure DiffStats where
  min_diff : ℚ
  avg_diff : ℚ
  max_diff : ℚ
  abs_avg_diff : ℚ
  count : Nat
deriving DecidableEq, Repr

/-- The `stats` dictionary of `calculate_summary_statistics`: each key is
present only when the corresponding data is non-empty. -/
structure Summary where
  device1 : Option DeviceStats
  device2 : Option DeviceStats
  difference : Option DiffStats
deriving DecidableEq, Repr

/-- pandas `Series.min`/`mean`/`max` plus `len` over one device's canonical
rows (analyze.py lines 155-158). -/
def deviceStatsOf (d : List CanonRow) : DeviceStats :=
  { min_hr := ((d.map (·.heart_rate)).min?).getD 0
    avg_hr := (d.map (·.heart_rate)).sum / (d.length : ℚ)
    max_hr := ((d.map (·.heart_rate)).max?).getD 0
    count := d.length }

/-- The statistics over the `heart_rate_difference` column (analyze.py lines
174-178). -/
def diffStatsOf (dd : List DiffRec) : DiffStats :=
  { min_diff := ((dd.map (·.heart_rate_difference)).min?).getD 0
    avg_diff := (dd.map (·.heart_rate_difference)).sum / (dd.length : ℚ)
    max_diff := ((dd.map (·.heart_rate_difference)).max?).getD 0
    abs_avg_diff := (dd.map (fun r => |r.heart_rate_difference|)).sum / (dd.length : ℚ)
    count := dd.length }

/-- `calculate_summary_statistics` (analyze.py lines 148-181): each section
is added to the dictionary only when its data is non-empty. -/
def calculate_summary_statistics (d1 d2 : List CanonRow) : Summary :=
  { device1 := if d1.isEmpty then none else some (deviceStatsOf d1)
    device2 := if d2.isEmpty then none else some (deviceStatsOf d2)
    difference :=
      let dd := calculate_differences d1 d2
      if dd.isEmpty then none else some (diffStatsOf dd) }

/-! ## generate_synthetic_tcx.py: Signal Model -/

/-- The four-branch base-heart-rate envelope of `generate_true_heart_rate`
(generate_synthetic_tcx.py lines 64-80), translated branch by branch. -/
def trueHrBase (mn mx progress : ℚ) : ℚ :=
  if progress < 0.2 then
    mn + (mx - mn) * (progress / 0.2) * 0.5
  else if progress < 0.5 then
    mn + (mx - mn) * (0.5 + 0.5 * ((progress - 0.2) / 0.3))
  else if progress < 0.8 then
    mx - (mx - mn) * 0.2 * ((progress - 0.5) / 0.3)
  else
    mx * 0.8 - (mx * 0.8 - mn) * ((progress - 0.8) / 0.2)

/-- `generate_true_heart_rate` (generate_synthetic_tcx.py lines 52-89):
timestamps are `start_time + i` seconds for `i < duration`, and each value is
the phase envelope plus `sin(i*0.1)*3 + sin(i*0.05)*2`, clamped to
`[mn, mx]`.  `start` stands for the `datetime.now()` call on line 57. -/
def generate_true_heart_rate (sn : ℚ → ℚ) (mn mx : ℚ) (start : Int)
    (duration : Nat) : List Int × List ℚ :=
  ((List.range duration).map (fun i : Nat => start + (i : Int)),
   (List.range duration).map (fun i : Nat =>
     clampQ mn mx (trueHrBase mn mx ((i : ℚ) / (duration : ℚ))
       + (sn ((i : ℚ) * 0.1) * 3 + sn ((i : ℚ) * 0.05) * 2))))

/-- Modelled from the spec (§4.1 and claim C9): the phase envelope described
as linear interpolation between the endpoints the spec names.  `lerp a b t`
moves from `a` (at `t = 0`) to `b` (at `t = 1`). -/
def lerpQ (a b t : ℚ) : ℚ := a + (b - a) * t

/-- Modelled from the spec (§4.1): warmup rises from `min_hr` to
`min_hr + 0.5·(max_hr−min_hr)`; ramp-up continues linearly to `max_hr`;
plateau decays by 20% of range; cooldown decays linearly from `0.8·max_hr`
to `min_hr`. -/
def specPhaseEnvelope (mn mx p : ℚ) : ℚ :=
  if p < 0.2 then lerpQ mn (mn + 0.5 * (mx - mn)) (p / 0.2)
  else if p < 0.5 then lerpQ (mn + 0.5 * (mx - mn)) mx ((p - 0.2) / 0.3)
  else if p < 0.8 then lerpQ mx (mx - 0.2 * (mx - mn)) ((p - 0.5) / 0.3)
  else lerpQ (0.8 * mx) mn ((p - 0.8) / 0.2)

/-! ## generate_synthetic_tcx.py: Device Noise Model -/

/-- The value of `noise[k]` built by `generate_autocorrelated_noise`
(generate_synthetic_tcx.py lines 91-102): `g` is the stream of standard
normal draws (`random.gauss(0, σ)` is `σ` times a standard draw) and `sq`
stands for `math.sqrt(1 - 0.7**2)`. -/
def noiseAux (g : Nat → ℚ) (sq std : ℚ) : Nat → ℚ
  | 0 => std * g 0
  | k + 1 => 0.7 * noiseAux g sq std k + (std * sq) * g (k + 1)

/-- `generate_autocorrelated_noise` as a list.  (For `length = 0` the Python
code still returns the one seed sample; only indices `< length` are ever
read, so the discrepancy is unobservable downstream.) -/
def generate_autocorrelated_noise (g : Nat → ℚ) (sq std : ℚ)
    (length : Nat) : List ℚ :=
  (List.range length).map (noiseAux g sq std)

/-- `device_config` dictionary (generate_synthetic_tcx.py lines 27-43). -/
structure DeviceConfig where
  bias : ℚ
  noise_std : ℚ
  gap_probability : ℚ
  max_gap_seconds : Int
  duplicate_probability : ℚ
deriving DecidableEq, Repr

/-- The only failure the generator can hit: `random.randint(1, m)` raises
`ValueError` when `m < 1`. -/
inductive GenError where
  | randintEmptyRange
deriving DecidableEq, Repr

/-- The `while i < len(true_timestamps)` loop of `generate_device_data`
(generate_synthetic_tcx.py lines 112-139).  `u` is the stream of
`random.random()` draws, `rd` the stream of `randint` raw draws (a raw draw
`r` with bounds `1..m` yields `1 + r % m`, covering exactly `[1, m]`), and
`gd` the stream of `random.gauss(0, 1)` draws for duplicate variation;
`ui`, `ri`, `gi` are the stream cursors. -/
def genLoop (ts : List Int) (hr noise : List ℚ) (cfg : DeviceConfig)
    (u : Nat → ℚ) (rd : Nat → Nat) (gd : Nat → ℚ)
    (i ui ri gi : Nat) : Except GenError (List (Int × ℚ)) :=
  if h : i < ts.length then
    if u ui < cfg.gap_probability then
      if 1 ≤ cfg.max_gap_seconds then
        genLoop ts hr noise cfg u rd gd
          (i + (1 + rd ri % cfg.max_gap_seconds.toNat)) (ui + 1) (ri + 1) gi
      else .error GenError.randintEmptyRange
    else
      let t := ts.getD i 0
      let v := clampQ 40 220 (hr.getD i 0 + cfg.bias + noise.getD i 0)
      if u (ui + 1) < cfg.duplicate_probability then
        Except.map
          (fun rest => (t, v) :: (t, clampQ 40 220 (v + gd gi)) :: rest)
          (genLoop ts hr noise cfg u rd gd (i + 1) (ui + 2) ri (gi + 1))
      else
        Except.map (fun rest => (t, v) :: rest)
          (genLoop ts hr noise cfg u rd gd (i + 1) (ui + 2) ri gi)
  else .ok []
termination_by ts.length - i
decreasing_by
  · omega
  · omega
  · omega

/-- `generate_device_data` (generate_synthetic_tcx.py lines 104-141): the
noise sequence is precomputed from the config's `noise_std`, then the
emission loop runs from index 0.  The two parallel output lists are modelled
as one list of (timestamp, heart-rate) pairs, in emission order. -/
def generate_device_data (ts : List Int) (hr : List ℚ) (cfg : DeviceConfig)
    (g : Nat → ℚ) (sq : ℚ) (u : Nat → ℚ) (rd : Nat → Nat) (gd : Nat → ℚ) :
    Except GenError (List (Int × ℚ)) :=
  let noise := generate_autocorrelated_noise g sq cfg.noise_std hr.length
  genLoop ts hr noise cfg u rd gd 0 0 0 0

/-! ## generate_synthetic_tcx.py: Fixture Generator -/

/-- `random.uniform(a, b)` given a unit draw `t`. -/
def uniformDraw (a b t : ℚ) : ℚ := a + (b - a) * t

/-- `random.randint(a, b)` (with `a ≤ b`) given a raw draw `r`. -/
def randintDraw (a b : Int) (r : Nat) : Int := a + (r % (b - a + 1).toNat)

/-- The `device_configs` draws of `SyntheticTCXGenerator.__init__`
(generate_synthetic_tcx.py lines 26-44), in source order: device1's five
parameters, then device2's.  `uc` is the stream of unit uniform draws and
`rc` the stream of raw `randint` draws. -/
def init_device_configs (uc : Nat → ℚ) (rc : Nat → Nat) :
    DeviceConfig × DeviceConfig :=
  ({ bias := uniformDraw (-10) 10 (uc 0)
     noise_std := uniformDraw 1 3 (uc 1)
     gap_probability := uniformDraw 0.01 0.05 (uc 2)
     max_gap_seconds := randintDraw 3 30 (rc 0)
     duplicate_probability := uniformDraw 0.05 0.15 (uc 3) },
   { bias := uniformDraw (-10) 10 (uc 4)
     noise_std := uniformDraw 1 3 (uc 5)
     gap_probability := uniformDraw 0.01 0.05 (uc 6)
     max_gap_seconds := randintDraw 3 30 (rc 1)
     duplicate_probability := uniformDraw 0.05 0.15 (uc 7) })

/-- All the draw streams a seeded run of the generator consumes.  Seeding
Python's global `random` fixes every stream; two runs with the same seed
share one `Rng` value. -/
structure Rng where
  uc : Nat → ℚ
  rc : Nat → Nat
  g1 : Nat → ℚ
  u1 : Nat → ℚ
  r1 : Nat → Nat
  gd1 : Nat → ℚ
  g2 : Nat → ℚ
  u2 : Nat → ℚ
  r2 : Nat → Nat
  gd2 : Nat → ℚ

/-- The trackpoint-sequence core of `generate_files`
(generate_synthetic_tcx.py lines 253-293): duration is the hardcoded
30 minutes at 1 Hz, the true curve uses `true_hr_min = 60` and
`true_hr_max = 180`, and both devices observe the same curve.  `now` stands
for the `datetime.now()` the run performs.  Returns the two devices'
(timestamp, heart-rate) sequences. -/
def generate_files (sn : ℚ → ℚ) (sq : ℚ) (rng : Rng) (now : Int) :
    Except GenError (List (Int × ℚ) × List (Int × ℚ)) := do
  let cfgs := init_device_configs rng.uc rng.rc
  let tt := generate_true_heart_rate sn 60 180 now (30 * 60)
  let d1 ← generate_device_data tt.1 tt.2 cfgs.1 rng.g1 sq rng.u1 rng.r1 rng.gd1
  let d2 ← generate_device_data tt.1 tt.2 cfgs.2 rng.g2 sq rng.u2 rng.r2 rng.gd2
  return (d1, d2)

/-- The heart-rate value the emission branch produces for index `j` (used to
describe the loop's output in closed form when no gaps or duplicates are
drawn). -/
def emitVals (ts : List Int) (hr noise : List ℚ) (cfg : DeviceConfig) : List ℚ :=
  (List.range ts.length).map
    (fun j => clampQ 40 220 (hr.getD j 0 + cfg.bias + noise.getD j 0))

/-- A concrete stream bundle: every `random.random` draw returns 1, every
raw `randint` draw 0, every gauss draw 0.  Under the profile ranges of
`__init__` this makes gap and duplicate checks always fail, so both devices
emit every sample. -/
def rngOne : Rng :=
  ⟨fun _ => 1, fun _ => 0, fun _ => 0, fun _ => 1, fun _ => 0, fun _ => 0,
   fun _ => 0, fun _ => 1, fun _ => 0, fun _ => 0⟩

/-! ## General helper lemmas -/

theorem min?_spec {l : List ℚ} {a : ℚ} (h : l.min? = some a) :
    a ∈ l ∧ ∀ b ∈ l, a ≤ b := by
  have anti : Std.Antisymm (fun (x y : ℚ) => x ≤ y) :=
    ⟨fun h h2 => le_antisymm h h2⟩
  exact (@List.min?_eq_some_iff ℚ a _ _ anti (fun _ => le_refl _)
    (fun a b => min_choice a b) (fun _ _ _ => le_min_iff) l).mp h

theorem max?_spec {l : List ℚ} {a : ℚ} (h : l.max? = some a) :
    a ∈ l ∧ ∀ b ∈ l, b ≤ a := by
  have anti : Std.Antisymm (fun (x y : ℚ) => x ≤ y) :=
    ⟨fun h h2 => le_antisymm h h2⟩
  exact (@List.max?_eq_some_iff ℚ a _ _ anti (fun _ => le_refl _)
    (fun a b => max_choice a b) (fun _ _ _ => max_le_iff) l).mp h

theorem clampQ_bounds {lo hi x : ℚ} (h : lo ≤ hi) :
    lo ≤ clampQ lo hi x ∧ clampQ lo hi x ≤ hi := by
  unfold clampQ
  constructor
  · exact le_max_left lo _
  · exact max_le h (min_le_left hi x)

/-! ## Canonicalization lemmas -/

theorem canonicalize_eq (l : List Trackpoint) :
    canonicalize l
      = (canonKeys l).map
          (fun t => aggGroup t (groupAt (List.insertionSort byTs l) t)) := rfl

theorem canonicalize_timestamp_mem {l : List Trackpoint} {c : CanonRow}
    (hc : c ∈ canonicalize l) : c ∈ (canonKeys l).map
      (fun t => aggGroup t (groupAt (List.insertionSort byTs l) t)) := by
  rwa [canonicalize_eq] at hc

theorem groupAt_sort_perm (l : List Trackpoint) (t : Int) :
    (groupAt (List.insertionSort byTs l) t).Perm (groupAt l t) :=
  (List.perm_insertionSort byTs l).filter _

/-- The heart rate of every canonical row is the mean over all trackpoints of
the input sharing its timestamp. -/
theorem canonicalize_hr_mean {l : List Trackpoint} {c : CanonRow}
    (hc : c ∈ canonicalize l) : c.heart_rate = meanHrAt l c.timestamp := by
  rw [canonicalize_eq] at hc
  rw [List.mem_map] at hc
  obtain ⟨t, _ht, rfl⟩ := hc
  show ((groupAt (List.insertionSort byTs l) t).map (·.heart_rate)).sum
      / ((groupAt (List.insertionSort byTs l) t).length : ℚ) = meanHrAt l t
  have hperm := groupAt_sort_perm l t
  rw [meanHrAt, (hperm.map (·.heart_rate)).sum_eq, hperm.length_eq]

/-- C2: duplicate averaging.  The two-element sequence at one timestamp
canonicalizes to the single averaged row, and in general each canonical
row's heart rate is the arithmetic mean over its equal-timestamp group. -/
theorem C2_duplicate_averaging :
    (∀ t : Int,
      canonicalize [⟨t, 60, none, none, none, none⟩, ⟨t, 80, none, none, none, none⟩]
        = [⟨t, 70, none, none, none, none⟩]) ∧
    ∀ (l : List Trackpoint), ∀ c ∈ canonicalize l,
      c.heart_rate = meanHrAt l c.timestamp := by
  constructor
  · intro t
    have hs : List.Sorted byTs
        [⟨t, 60, none, none, none, none⟩, ⟨t, 80, none, none, none, none⟩] := by
      simp [List.sorted_cons, byTs]
    rw [canonicalize_eq, canonKeys, List.Sorted.insertionSort_eq hs]
    simp only [List.map_cons, List.map_nil]
    rw [List.dedup_cons_of_mem (by simp), List.dedup_cons_of_not_mem (by simp),
      List.dedup_nil]
    simp only [List.map_cons, List.map_nil, groupAt, List.filter]
    norm_num [aggGroup, firstSome]
  · intro l c hc
    exact canonicalize_hr_mean hc

/-- Witness for C2 at a concrete input. -/
theorem C2_duplicate_averaging_witness :
    (⟨5, 70, none, none, none, none⟩ : CanonRow).heart_rate
      = meanHrAt [⟨5, 60, none, none, none, none⟩, ⟨5, 80, none, none, none, none⟩]
          (⟨5, 70, none, none, none, none⟩ : CanonRow).timestamp :=
  C2_duplicate_averaging.2
    [⟨5, 60, none, none, none, none⟩, ⟨5, 80, none, none, none, none⟩]
    ⟨5, 70, none, none, none, none⟩
    (by rw [C2_duplicate_averaging.1 5]; exact List.mem_singleton_self _)

theorem aggGroup_sort_hr (l : List Trackpoint) (t : Int) :
    (aggGroup t (groupAt (List.insertionSort byTs l) t)).heart_rate = meanHrAt l t := by
  show ((groupAt (List.insertionSort byTs l) t).map (·.heart_rate)).sum
      / ((groupAt (List.insertionSort byTs l) t).length : ℚ) = meanHrAt l t
  have hperm := groupAt_sort_perm l t
  rw [meanHrAt, (hperm.map (·.heart_rate)).sum_eq, hperm.length_eq]

theorem canonKeys_sorted (l : List Trackpoint) :
    List.Sorted (fun a b : Int => a ≤ b) (canonKeys l) := by
  have hs : List.Sorted byTs (List.insertionSort byTs l) :=
    List.sorted_insertionSort byTs l
  have hmap : List.Pairwise (fun a b : Int => a ≤ b)
      ((List.insertionSort byTs l).map (·.timestamp)) :=
    List.Pairwise.map _ (fun _ _ h => h) hs
  exact List.Pairwise.sublist (List.dedup_sublist _) hmap

theorem canonKeys_pairwise_lt (l : List Trackpoint) :
    List.Pairwise (fun a b : Int => a < b) (canonKeys l) :=
  ((canonKeys_sorted l).and (List.nodup_dedup _)).imp
    (fun h => lt_of_le_of_ne h.1 h.2)

theorem canonKeys_perm {l l' : List Trackpoint} (h : l.Perm l') :
    canonKeys l = canonKeys l' := by
  have h1 : (List.insertionSort byTs l).Perm (List.insertionSort byTs l') :=
    (List.perm_insertionSort byTs l).trans (h.trans (List.perm_insertionSort byTs l').symm)
  have h2 : ((List.insertionSort byTs l).map (·.timestamp)).Perm
      ((List.insertionSort byTs l').map (·.timestamp)) := h1.map _
  exact List.eq_of_perm_of_sorted h2.dedup (canonKeys_sorted l) (canonKeys_sorted l')

theorem meanHrAt_perm {l l' : List Trackpoint} (h : l.Perm l') (t : Int) :
    meanHrAt l t = meanHrAt l' t := by
  have hg : (groupAt l t).Perm (groupAt l' t) := h.filter _
  rw [meanHrAt, meanHrAt, (hg.map (·.heart_rate)).sum_eq, hg.length_eq]

theorem canonicalize_pairs (l : List Trackpoint) :
    (canonicalize l).map (fun c => (c.timestamp, c.heart_rate))
      = (canonKeys l).map (fun t => (t, meanHrAt l t)) := by
  rw [canonicalize_eq, List.map_map]
  refine List.map_congr_left (fun t _ => ?_)
  show ((aggGroup t (groupAt (List.insertionSort byTs l) t)).timestamp,
        (aggGroup t (groupAt (List.insertionSort byTs l) t)).heart_rate)
      = (t, meanHrAt l t)
  rw [aggGroup_sort_hr]
  rfl

theorem canonicalize_pair {a b : Trackpoint} (h : b.timestamp = a.timestamp) :
    canonicalize [a, b] = [aggGroup a.timestamp [a, b]] := by
  have hs : List.Sorted byTs [a, b] := by
    simp [List.sorted_cons, byTs, h.ge]
  rw [canonicalize_eq, canonKeys, List.Sorted.insertionSort_eq hs]
  simp only [List.map_cons, List.map_nil, h]
  rw [List.dedup_cons_of_mem (by simp), List.dedup_cons_of_not_mem (by simp),
    List.dedup_nil]
  simp only [List.map_cons, List.map_nil]
  congr 1
  simp [groupAt, List.filter, h]

/-- C3 counterexample: swapping two same-timestamp trackpoints that carry
different non-null latitudes changes the canonical series (the latitude
field follows encounter order), refuting invariance "in all fields". -/
theorem C3_counterexample :
    ([⟨5, 60, some 1, none, none, none⟩, ⟨5, 80, some 2, none, none, none⟩]
        : List Trackpoint).Perm
      [⟨5, 80, some 2, none, none, none⟩, ⟨5, 60, some 1, none, none, none⟩] ∧
    canonicalize [⟨5, 60, some 1, none, none, none⟩, ⟨5, 80, some 2, none, none, none⟩]
      ≠ canonicalize [⟨5, 80, some 2, none, none, none⟩, ⟨5, 60, some 1, none, none, none⟩] := by
  constructor
  · exact List.Perm.swap _ _ _
  · rw [@canonicalize_pair ⟨5, 60, some 1, none, none, none⟩
        ⟨5, 80, some 2, none, none, none⟩ rfl,
      @canonicalize_pair ⟨5, 80, some 2, none, none, none⟩
        ⟨5, 60, some 1, none, none, none⟩ rfl]
    simp [aggGroup, firstSome]

/-- C3 amended: canonicalizing any permutation of the same trackpoint
multiset yields a Canonical Series with identical timestamps and heart
rates; the auxiliary fields may differ, as they take the first non-null
value in encounter order. -/
theorem C3_order_invariance (l l' : List Trackpoint) (h : l.Perm l') :
    (canonicalize l).map (fun c => (c.timestamp, c.heart_rate))
      = (canonicalize l').map (fun c => (c.timestamp, c.heart_rate)) := by
  rw [canonicalize_pairs, canonicalize_pairs, canonKeys_perm h]
  exact List.map_congr_left (fun t _ => by rw [meanHrAt_perm h])

/-- Witness for the amended C3 at a concrete permutation. -/
theorem C3_order_invariance_witness :
    (canonicalize [⟨5, 60, some 1, none, none, none⟩, ⟨5, 80, some 2, none, none, none⟩]).map
        (fun c => (c.timestamp, c.heart_rate))
      = (canonicalize [⟨5, 80, some 2, none, none, none⟩, ⟨5, 60, some 1, none, none, none⟩]).map
        (fun c => (c.timestamp, c.heart_rate)) :=
  C3_order_invariance _ _ (List.Perm.swap _ _ _)

theorem canonicalize_ts (l : List Trackpoint) :
    (canonicalize l).map (·.timestamp) = canonKeys l := by
  rw [canonicalize_eq, List.map_map]
  exact List.map_id _

theorem groupAt_singleton {rows : List Trackpoint} {r : Trackpoint}
    (h : (rows.map (·.timestamp)).Nodup) (hr : r ∈ rows) :
    groupAt rows r.timestamp = [r] := by
  induction rows with
  | nil => cases hr
  | cons hd tl ih =>
    rw [List.map_cons, List.nodup_cons] at h
    rw [groupAt, List.filter_cons]
    rcases List.mem_cons.mp hr with heq | hmem
    · subst heq
      have htl : List.filter (fun x => x.timestamp == r.timestamp) tl = [] := by
        rw [List.filter_eq_nil_iff]
        intro x hx hbeq
        exact h.1 (List.mem_map.mpr ⟨x, hx, eq_of_beq hbeq⟩)
      simp only [beq_self_eq_true, if_true, htl]
    · have hne : (hd.timestamp == r.timestamp) = false := by
        rw [beq_eq_false_iff_ne]
        intro he
        exact h.1 (List.mem_map.mpr ⟨r, hmem, he.symm⟩)
      rw [hne]
      simp only [Bool.false_eq_true, if_false]
      exact ih h.2 hmem

theorem canonicalize_singletons {rows : List Trackpoint}
    (h : (rows.map (·.timestamp)).Pairwise (fun a b : Int => a < b)) :
    canonicalize rows = rows.map (fun r => aggGroup r.timestamp [r]) := by
  have hsorted : List.Sorted byTs rows :=
    (List.pairwise_map.mp h).imp (fun hab => le_of_lt hab)
  have hnodup : (rows.map (·.timestamp)).Nodup := h.imp (fun hab => ne_of_lt hab)
  rw [canonicalize_eq, canonKeys, List.Sorted.insertionSort_eq hsorted,
    List.dedup_eq_self.mpr hnodup, List.map_map]
  exact List.map_congr_left
    (fun r hr => by rw [Function.comp_apply, groupAt_singleton hnodup hr])

theorem aggGroup_asTrackpoint (c : CanonRow) :
    aggGroup c.asTrackpoint.timestamp [c.asTrackpoint] = c := by
  obtain ⟨t, h, la, lo, al, di⟩ := c
  have hla : firstSome [la] = la := by cases la <;> rfl
  have hlo : firstSome [lo] = lo := by cases lo <;> rfl
  have hal : firstSome [al] = al := by cases al <;> rfl
  have hdi : firstSome [di] = di := by cases di <;> rfl
  norm_num [aggGroup, CanonRow.asTrackpoint, hla, hlo, hal, hdi]

/-- C4: canonicalization is idempotent — feeding the canonical series back
through canonicalization (as trackpoints) reproduces it exactly. -/
theorem C4_idempotent (l : List Trackpoint) :
    canonicalize ((canonicalize l).map CanonRow.asTrackpoint) = canonicalize l := by
  have hts : (((canonicalize l).map CanonRow.asTrackpoint).map (·.timestamp)).Pairwise
      (fun a b : Int => a < b) := by
    have h1 : ((canonicalize l).map CanonRow.asTrackpoint).map (·.timestamp)
        = (canonicalize l).map (·.timestamp) := by
      rw [List.map_map]
      rfl
    rw [h1, canonicalize_ts]
    exact canonKeys_pairwise_lt l
  rw [canonicalize_singletons hts, List.map_map]
  have h2 : ((fun r : Trackpoint => aggGroup r.timestamp [r]) ∘ CanonRow.asTrackpoint)
      = fun c : CanonRow => aggGroup c.asTrackpoint.timestamp [c.asTrackpoint] := rfl
  rw [h2, List.map_congr_left (fun c _ => aggGroup_asTrackpoint c), List.map_id']

/-! ## Reconciler lemmas -/

theorem mergeDiffs_nil_left (d : List CanonRow) : mergeDiffs [] d = [] := rfl

theorem mergeDiffs_nil_right (d : List CanonRow) : mergeDiffs d [] = [] := by
  rw [mergeDiffs, List.flatMap_eq_nil_iff]
  intro a _
  rfl

theorem calculate_differences_eq (d1 d2 : List CanonRow) :
    calculate_differences d1 d2 = mergeDiffs d1 d2 := by
  rw [calculate_differences]
  split
  · rename_i hc
    cases d1 with
    | nil => rw [mergeDiffs_nil_left]
    | cons x xs =>
      cases d2 with
      | nil => rw [mergeDiffs_nil_right]
      | cons y ys => simp at hc
  · rfl

theorem mergeDiffs_cons (x : CanonRow) (L M : List CanonRow) :
    mergeDiffs (x :: L) M
      = (M.filter (fun b => b.timestamp == x.timestamp)).map (fun b => mkDiff x b)
        ++ mergeDiffs L M := by
  rw [mergeDiffs, List.flatMap_cons]
  rfl

theorem mergeDiffs_cons_right {L : List CanonRow} {c : CanonRow} (R : List CanonRow)
    (h : ∀ x ∈ L, x.timestamp ≠ c.timestamp) :
    mergeDiffs L (c :: R) = mergeDiffs L R := by
  induction L with
  | nil => rfl
  | cons a L ih =>
    rw [mergeDiffs_cons, mergeDiffs_cons, ih (fun x hx => h x (List.mem_cons_of_mem a hx))]
    congr 1
    rw [List.filter_cons]
    have hne : (c.timestamp == a.timestamp) = false :=
      beq_eq_false_iff_ne.mpr (fun he => h a (List.mem_cons_self a L) he.symm)
    rw [hne]
    simp only [Bool.false_eq_true, if_false]

theorem mergeDiffs_cons_left {R : List CanonRow} {a : CanonRow} (L : List CanonRow)
    (h : ∀ y ∈ R, y.timestamp ≠ a.timestamp) :
    mergeDiffs (a :: L) R = mergeDiffs L R := by
  rw [mergeDiffs_cons]
  have hf : R.filter (fun b => b.timestamp == a.timestamp) = [] :=
    List.filter_eq_nil_iff.mpr (fun y hy hbeq => h y hy (eq_of_beq hbeq))
  rw [hf, List.map_nil, List.nil_append]

theorem mergeDiffs_antisymm : ∀ (n : Nat) (A B : List CanonRow),
    A.length + B.length ≤ n →
    (A.map (·.timestamp)).Pairwise (fun a b : Int => a < b) →
    (B.map (·.timestamp)).Pairwise (fun a b : Int => a < b) →
    mergeDiffs B A = (mergeDiffs A B).map swapDiff := by
  intro n
  induction n with
  | zero =>
    intro A B hlen _ _
    have hA : A = [] := by cases A <;> simp_all
    have hB : B = [] := by cases B <;> simp_all
    subst hA hB
    rfl
  | succ n ih =>
    intro A B hlen hA hB
    match A, B with
    | [], B =>
      rw [mergeDiffs_nil_right, mergeDiffs_nil_left, List.map_nil]
    | a :: A', [] =>
      rw [mergeDiffs_nil_left, mergeDiffs_nil_right, List.map_nil]
    | a :: A', b :: B' =>
      rw [List.map_cons] at hA hB
      obtain ⟨ha1, ha2⟩ := List.pairwise_cons.mp hA
      obtain ⟨hb1, hb2⟩ := List.pairwise_cons.mp hB
      rw [List.length_cons] at hlen
      rcases lt_trichotomy a.timestamp b.timestamp with hlt | heq | hgt
      · -- a precedes everything in b :: B' and matches nothing there
        have hnb : ∀ x ∈ (b :: B'), x.timestamp ≠ a.timestamp := by
          intro x hx
          rcases List.mem_cons.mp hx with rfl | hx'
          · exact (ne_of_lt hlt).symm
          · exact (ne_of_lt (lt_trans hlt (hb1 _ (List.mem_map_of_mem _ hx')))).symm
        rw [mergeDiffs_cons_right A' hnb, mergeDiffs_cons_left A' hnb]
        apply ih A' (b :: B') (by simp at hlen ⊢; omega) ha2
        rw [List.map_cons]
        exact hB
      · -- equal heads: they match exactly each other
        have hfA : (a :: A').filter (fun x => x.timestamp == b.timestamp) = [a] := by
          rw [List.filter_cons]
          have : (a.timestamp == b.timestamp) = true := beq_iff_eq.mpr heq
          rw [this]
          simp only [if_true]
          rw [List.filter_eq_nil_iff.mpr]
          intro x hx hbeq
          exact absurd (eq_of_beq hbeq)
            (ne_of_gt (heq ▸ ha1 _ (List.mem_map_of_mem _ hx)))
        have hfB : (b :: B').filter (fun x => x.timestamp == a.timestamp) = [b] := by
          rw [List.filter_cons]
          have : (b.timestamp == a.timestamp) = true := beq_iff_eq.mpr heq.symm
          rw [this]
          simp only [if_true]
          rw [List.filter_eq_nil_iff.mpr]
          intro x hx hbeq
          exact absurd (eq_of_beq hbeq)
            (ne_of_gt (heq.symm ▸ hb1 _ (List.mem_map_of_mem _ hx)))
        have hdropB : ∀ x ∈ B', x.timestamp ≠ a.timestamp := by
          intro x hx
          exact (ne_of_gt (heq ▸ hb1 _ (List.mem_map_of_mem _ hx)))
        have hdropA : ∀ x ∈ A', x.timestamp ≠ b.timestamp := by
          intro x hx
          exact (ne_of_gt (heq.symm ▸ ha1 _ (List.mem_map_of_mem _ hx)))
        rw [mergeDiffs_cons b B' (a :: A'), hfA,
          mergeDiffs_cons_right A' hdropB,
          mergeDiffs_cons a A' (b :: B'), hfB,
          mergeDiffs_cons_right B' hdropA]
        simp only [List.map_cons, List.map_nil, List.map_append,
          List.singleton_append]
        have hswap : mkDiff b a = swapDiff (mkDiff a b) := by
          simp [mkDiff, swapDiff, heq]
        rw [hswap, ih A' B' (by simp at hlen ⊢; omega) ha2 hb2]
      · -- b precedes everything in a :: A' and matches nothing there
        have hna : ∀ x ∈ (a :: A'), x.timestamp ≠ b.timestamp := by
          intro x hx
          rcases List.mem_cons.mp hx with rfl | hx'
          · exact (ne_of_lt hgt).symm
          · exact (ne_of_lt (lt_trans hgt (ha1 _ (List.mem_map_of_mem _ hx')))).symm
        rw [mergeDiffs_cons_left B' hna, mergeDiffs_cons_right B' hna]
        apply ih (a :: A') B' (by simp at hlen ⊢; omega) _ hb2
        rw [List.map_cons]
        exact hA

/-- C5: the Reconciler is antisymmetric on canonical series — the difference
series of the swapped reconciliation is the element-wise negation, and both
directions report the same count of matched timestamps. -/
theorem C5_reconciler_antisymmetry (A B : List CanonRow)
    (hA : (A.map (·.timestamp)).Pairwise (fun a b : Int => a < b))
    (hB : (B.map (·.timestamp)).Pairwise (fun a b : Int => a < b)) :
    (calculate_differences B A).map (·.heart_rate_difference)
      = (calculate_differences A B).map (fun d => -d.heart_rate_difference)
    ∧ (calculate_differences B A).length = (calculate_differences A B).length := by
  have hm := mergeDiffs_antisymm (A.length + B.length) A B le_rfl hA hB
  rw [calculate_differences_eq, calculate_differences_eq, hm]
  constructor
  · rw [List.map_map]
    refine List.map_congr_left (fun d hd => ?_)
    rw [mergeDiffs] at hd
    rw [List.mem_flatMap] at hd
    obtain ⟨a, _, hd⟩ := hd
    rw [List.mem_map] at hd
    obtain ⟨b, _, rfl⟩ := hd
    show (swapDiff (mkDiff a b)).heart_rate_difference = -(mkDiff a b).heart_rate_difference
    simp [swapDiff, mkDiff]
  · rw [List.length_map]

/-- Witness for C5 at concrete canonical series. -/
theorem C5_reconciler_antisymmetry_witness :
    (calculate_differences [⟨2, 75, none, none, none, none⟩]
        [⟨1, 60, none, none, none, none⟩, ⟨2, 70, none, none, none, none⟩]).map
      (·.heart_rate_difference)
      = (calculate_differences [⟨1, 60, none, none, none, none⟩, ⟨2, 70, none, none, none, none⟩]
          [⟨2, 75, none, none, none, none⟩]).map (fun d => -d.heart_rate_difference)
    ∧ (calculate_differences [⟨2, 75, none, none, none, none⟩]
        [⟨1, 60, none, none, none, none⟩, ⟨2, 70, none, none, none, none⟩]).length
      = (calculate_differences [⟨1, 60, none, none, none, none⟩, ⟨2, 70, none, none, none, none⟩]
          [⟨2, 75, none, none, none, none⟩]).length :=
  C5_reconciler_antisymmetry
    [⟨1, 60, none, none, none, none⟩, ⟨2, 70, none, none, none, none⟩]
    [⟨2, 75, none, none, none, none⟩] (by decide) (by decide)

/-- C6: reconciling an empty series with a non-empty `B` yields an empty
difference set, omits the device1 and difference statistics, and reports
exactly B's min/mean/max/count — no error path exists. -/
theorem C6_empty_left_reconcile (B : List CanonRow) (hB : B ≠ []) :
    calculate_differences [] B = [] ∧
    (calculate_summary_statistics [] B).device1 = none ∧
    (calculate_summary_statistics [] B).difference = none ∧
    ∃ s, (calculate_summary_statistics [] B).device2 = some s ∧
      s.count = B.length ∧
      s.min_hr ∈ B.map (·.heart_rate) ∧ (∀ x ∈ B.map (·.heart_rate), s.min_hr ≤ x) ∧
      s.max_hr ∈ B.map (·.heart_rate) ∧ (∀ x ∈ B.map (·.heart_rate), x ≤ s.max_hr) ∧
      s.avg_hr * (B.length : ℚ) = (B.map (·.heart_rate)).sum := by
  have hd : calculate_differences [] B = [] := by
    rw [calculate_differences]
    simp
  refine ⟨hd, ?_, ?_, ?_⟩
  · simp [calculate_summary_statistics]
  · simp [calculate_summary_statistics, hd]
  · have hBempty : B.isEmpty = false := by
      cases B
      · exact absurd rfl hB
      · rfl
    refine ⟨deviceStatsOf B, ?_, rfl, ?_⟩
    · simp [calculate_summary_statistics, hBempty]
    · have hmapne : B.map (·.heart_rate) ≠ [] := by
        cases B
        · exact absurd rfl hB
        · simp
      obtain ⟨m, hm⟩ : ∃ m, (B.map (·.heart_rate)).min? = some m := by
        cases hmin : (B.map (·.heart_rate)).min? with
        | none => exact absurd (List.min?_eq_none_iff.mp hmin) hmapne
        | some m => exact ⟨m, rfl⟩
      obtain ⟨M, hM⟩ : ∃ M, (B.map (·.heart_rate)).max? = some M := by
        cases hmax : (B.map (·.heart_rate)).max? with
        | none => exact absurd (List.max?_eq_none_iff.mp hmax) hmapne
        | some M => exact ⟨M, rfl⟩
      have hmin := min?_spec hm
      have hmax := max?_spec hM
      have hlen : ((B.length : ℚ)) ≠ 0 := by
        have : B.length ≠ 0 := by
          cases B
          · exact absurd rfl hB
          · simp
        exact_mod_cast Nat.cast_ne_zero.mpr this
      refine ⟨?_, ?_, ?_, ?_, ?_⟩
      · show ((B.map (·.heart_rate)).min?).getD 0 ∈ B.map (·.heart_rate)
        rw [hm]
        exact hmin.1
      · intro x hx
        show ((B.map (·.heart_rate)).min?).getD 0 ≤ x
        rw [hm]
        exact hmin.2 x hx
      · show ((B.map (·.heart_rate)).max?).getD 0 ∈ B.map (·.heart_rate)
        rw [hM]
        exact hmax.1
      · intro x hx
        show x ≤ ((B.map (·.heart_rate)).max?).getD 0
        rw [hM]
        exact hmax.2 x hx
      · show (B.map (·.heart_rate)).sum / (B.length : ℚ) * (B.length : ℚ)
          = (B.map (·.heart_rate)).sum
        exact div_mul_cancel₀ _ hlen

/-- Witness for C6 at a concrete non-empty series. -/
theorem C6_empty_left_reconcile_witness :
    calculate_differences [] ([⟨2, 75, none, none, none, none⟩] : List CanonRow) = [] ∧
    (calculate_summary_statistics [] ([⟨2, 75, none, none, none, none⟩] : List CanonRow)).device1 = none ∧
    (calculate_summary_statistics [] ([⟨2, 75, none, none, none, none⟩] : List CanonRow)).difference = none ∧
    ∃ s, (calculate_summary_statistics []
        ([⟨2, 75, none, none, none, none⟩] : List CanonRow)).device2 = some s ∧
      s.count = ([⟨2, 75, none, none, none, none⟩] : List CanonRow).length ∧
      s.min_hr ∈ ([⟨2, 75, none, none, none, none⟩] : List CanonRow).map (·.heart_rate) ∧
      (∀ x ∈ ([⟨2, 75, none, none, none, none⟩] : List CanonRow).map (·.heart_rate), s.min_hr ≤ x) ∧
      s.max_hr ∈ ([⟨2, 75, none, none, none, none⟩] : List CanonRow).map (·.heart_rate) ∧
      (∀ x ∈ ([⟨2, 75, none, none, none, none⟩] : List CanonRow).map (·.heart_rate), x ≤ s.max_hr) ∧
      s.avg_hr * ((([⟨2, 75, none, none, none, none⟩] : List CanonRow).length : ℚ))
        = (([⟨2, 75, none, none, none, none⟩] : List CanonRow).map (·.heart_rate)).sum :=
  C6_empty_left_reconcile [⟨2, 75, none, none, none, none⟩] (by decide)

/-! ## Device Noise Model lemmas -/

theorem genLoop_gap {ts : List Int} {hr noise : List ℚ} {cfg : DeviceConfig}
    {u : Nat → ℚ} {rd : Nat → Nat} {gd : Nat → ℚ} {i ui ri gi : Nat}
    (h : i < ts.length) (hg : u ui < cfg.gap_probability)
    (hm : 1 ≤ cfg.max_gap_seconds) :
    genLoop ts hr noise cfg u rd gd i ui ri gi
      = genLoop ts hr noise cfg u rd gd
          (i + (1 + rd ri % cfg.max_gap_seconds.toNat)) (ui + 1) (ri + 1) gi := by
  rw [genLoop.eq_def, dif_pos h, if_pos hg, if_pos hm]

theorem genLoop_gap_error {ts : List Int} {hr noise : List ℚ} {cfg : DeviceConfig}
    {u : Nat → ℚ} {rd : Nat → Nat} {gd : Nat → ℚ} {i ui ri gi : Nat}
    (h : i < ts.length) (hg : u ui < cfg.gap_probability)
    (hm : ¬ 1 ≤ cfg.max_gap_seconds) :
    genLoop ts hr noise cfg u rd gd i ui ri gi
      = .error GenError.randintEmptyRange := by
  rw [genLoop.eq_def, dif_pos h, if_pos hg, if_neg hm]

theorem genLoop_emit_dup {ts : List Int} {hr noise : List ℚ} {cfg : DeviceConfig}
    {u : Nat → ℚ} {rd : Nat → Nat} {gd : Nat → ℚ} {i ui ri gi : Nat}
    (h : i < ts.length) (hg : ¬ u ui < cfg.gap_probability)
    (hd : u (ui + 1) < cfg.duplicate_probability) :
    genLoop ts hr noise cfg u rd gd i ui ri gi
      = Except.map
          (fun rest => (ts.getD i 0, clampQ 40 220 (hr.getD i 0 + cfg.bias + noise.getD i 0))
            :: (ts.getD i 0, clampQ 40 220
                  (clampQ 40 220 (hr.getD i 0 + cfg.bias + noise.getD i 0) + gd gi)) :: rest)
          (genLoop ts hr noise cfg u rd gd (i + 1) (ui + 2) ri (gi + 1)) := by
  rw [genLoop.eq_def, dif_pos h, if_neg hg]
  simp only [if_pos hd]

theorem genLoop_emit {ts : List Int} {hr noise : List ℚ} {cfg : DeviceConfig}
    {u : Nat → ℚ} {rd : Nat → Nat} {gd : Nat → ℚ} {i ui ri gi : Nat}
    (h : i < ts.length) (hg : ¬ u ui < cfg.gap_probability)
    (hd : ¬ u (ui + 1) < cfg.duplicate_probability) :
    genLoop ts hr noise cfg u rd gd i ui ri gi
      = Except.map
          (fun rest => (ts.getD i 0, clampQ 40 220 (hr.getD i 0 + cfg.bias + noise.getD i 0))
            :: rest)
          (genLoop ts hr noise cfg u rd gd (i + 1) (ui + 2) ri gi) := by
  rw [genLoop.eq_def, dif_pos h, if_neg hg]
  simp only [if_neg hd]

theorem genLoop_done {ts : List Int} {hr noise : List ℚ} {cfg : DeviceConfig}
    {u : Nat → ℚ} {rd : Nat → Nat} {gd : Nat → ℚ} {i ui ri gi : Nat}
    (h : ¬ i < ts.length) :
    genLoop ts hr noise cfg u rd gd i ui ri gi = .ok [] := by
  rw [genLoop.eq_def, dif_neg h]

theorem genLoop_hr_bounds (ts : List Int) (hr noise : List ℚ) (cfg : DeviceConfig)
    (u : Nat → ℚ) (rd : Nat → Nat) (gd : Nat → ℚ) (i ui ri gi : Nat) :
    ∀ out, genLoop ts hr noise cfg u rd gd i ui ri gi = .ok out →
      ∀ p ∈ out, 40 ≤ p.2 ∧ p.2 ≤ 220 := by
  induction i, ui, ri, gi using genLoop.induct ts hr noise cfg u rd gd with
  | case1 i ui ri gi h hg hm ih =>
    intro out hout p hp
    rw [genLoop_gap h hg hm] at hout
    exact ih out hout p hp
  | case2 i ui ri gi h hg hm =>
    intro out hout
    rw [genLoop_gap_error h hg hm] at hout
    cases hout
  | case3 i ui ri gi h hg hd ih =>
    intro out hout p hp
    rw [genLoop_emit_dup h hg hd] at hout
    cases hrec : genLoop ts hr noise cfg u rd gd (i + 1) (ui + 2) ri (gi + 1) with
    | error e => rw [hrec] at hout; cases hout
    | ok rest =>
      rw [hrec] at hout
      simp only [Except.map] at hout
      cases hout
      rcases List.mem_cons.mp hp with rfl | hp'
      · exact clampQ_bounds (by norm_num)
      · rcases List.mem_cons.mp hp' with rfl | hp''
        · exact clampQ_bounds (by norm_num)
        · exact ih rest hrec p hp''
  | case4 i ui ri gi h hg hd ih =>
    intro out hout p hp
    rw [genLoop_emit h hg hd] at hout
    cases hrec : genLoop ts hr noise cfg u rd gd (i + 1) (ui + 2) ri gi with
    | error e => rw [hrec] at hout; cases hout
    | ok rest =>
      rw [hrec] at hout
      simp only [Except.map] at hout
      cases hout
      rcases List.mem_cons.mp hp with rfl | hp'
      · exact clampQ_bounds (by norm_num)
      · exact ih rest hrec p hp'
  | case5 i ui ri gi h =>
    intro out hout p hp
    rw [genLoop_done h] at hout
    cases hout
    cases hp

/-- C7: every heart-rate value emitted by `generate_device_data`, duplicates
included, lies in the closed interval [40, 220], for every input, profile
and noise realization. -/
theorem C7_noise_boundedness (ts : List Int) (hr : List ℚ) (cfg : DeviceConfig)
    (g : Nat → ℚ) (sq : ℚ) (u : Nat → ℚ) (rd : Nat → Nat) (gd : Nat → ℚ) :
    ∀ out, generate_device_data ts hr cfg g sq u rd gd = .ok out →
      ∀ p ∈ out, 40 ≤ p.2 ∧ p.2 ≤ 220 := by
  intro out hout
  exact genLoop_hr_bounds ts hr
    (generate_autocorrelated_noise g sq cfg.noise_std hr.length) cfg u rd gd
    0 0 0 0 out hout

/-- Witness for C7 at a concrete run. -/
theorem C7_noise_boundedness_witness :
    (40 : ℚ) ≤ (((0:Int), (100:ℚ))).2 ∧ (((0:Int), (100:ℚ))).2 ≤ 220 := by
  refine C7_noise_boundedness [0] [100] ⟨0, 1, 0, 1, 0⟩ (fun _ => 0) 0
    (fun _ => 1) (fun _ => 0) (fun _ => 0) [((0:Int), (100:ℚ))] ?_ ((0:Int), (100:ℚ))
    (List.mem_singleton_self _)
  have hnoise : generate_autocorrelated_noise (fun _ => (0:ℚ)) 0 1 1 = [0] := by
    norm_num [generate_autocorrelated_noise, noiseAux, List.range_succ]
  show genLoop [0] [100] (generate_autocorrelated_noise (fun _ => (0:ℚ)) 0 1 1)
    ⟨0, 1, 0, 1, 0⟩ (fun _ => 1) (fun _ => 0) (fun _ => 0) 0 0 0 0
      = .ok [((0:Int), (100:ℚ))]
  rw [hnoise, genLoop_emit (by norm_num) (by norm_num) (by norm_num),
    genLoop_done (by norm_num)]
  show Except.ok [((0:Int), clampQ 40 220 (100 + 0 + 0))] = _
  norm_num [clampQ]

theorem genLoop_ts_mono {ts : List Int} (hts : ts.Pairwise (fun a b : Int => a < b))
    (hr noise : List ℚ) (cfg : DeviceConfig)
    (u : Nat → ℚ) (rd : Nat → Nat) (gd : Nat → ℚ) (i ui ri gi : Nat) :
    ∀ out, genLoop ts hr noise cfg u rd gd i ui ri gi = .ok out →
      (out.map Prod.fst).Chain' (fun a b : Int => a ≤ b) ∧
      ∀ p ∈ out, ∃ j, i ≤ j ∧ j < ts.length ∧ p.1 = ts.getD j 0 := by
  induction i, ui, ri, gi using genLoop.induct ts hr noise cfg u rd gd with
  | case1 i ui ri gi h hg hm ih =>
    intro out hout
    rw [genLoop_gap h hg hm] at hout
    obtain ⟨hc, hmem⟩ := ih out hout
    refine ⟨hc, fun p hp => ?_⟩
    obtain ⟨j, hij, hjlen, hpj⟩ := hmem p hp
    exact ⟨j, by omega, hjlen, hpj⟩
  | case2 i ui ri gi h hg hm =>
    intro out hout
    rw [genLoop_gap_error h hg hm] at hout
    cases hout
  | case3 i ui ri gi h hg hd ih =>
    intro out hout
    rw [genLoop_emit_dup h hg hd] at hout
    cases hrec : genLoop ts hr noise cfg u rd gd (i + 1) (ui + 2) ri (gi + 1) with
    | error e => rw [hrec] at hout; cases hout
    | ok rest =>
      rw [hrec] at hout
      simp only [Except.map] at hout
      cases hout
      obtain ⟨hc, hmem⟩ := ih rest hrec
      have hhead : ∀ y ∈ (rest.map Prod.fst).head?, ts.getD i 0 ≤ y := by
        intro y hy
        cases rest with
        | nil => simp at hy
        | cons q rest' =>
          simp only [List.map_cons, List.head?_cons, Option.mem_def,
            Option.some_inj] at hy
          obtain ⟨j, hij, hjlen, hpj⟩ := hmem q (List.mem_cons_self q rest')
          have hlt := List.pairwise_iff_getElem.mp hts i j h hjlen (by omega)
          rw [← hy, hpj, List.getD_eq_getElem ts 0 h, List.getD_eq_getElem ts 0 hjlen]
          exact le_of_lt hlt
      constructor
      · rw [List.map_cons, List.map_cons, List.chain'_cons]
        refine ⟨le_refl _, ?_⟩
        rw [List.chain'_cons']
        exact ⟨hhead, hc⟩
      · intro p hp
        rcases List.mem_cons.mp hp with rfl | hp'
        · exact ⟨i, le_refl i, h, rfl⟩
        · rcases List.mem_cons.mp hp' with rfl | hp''
          · exact ⟨i, le_refl i, h, rfl⟩
          · obtain ⟨j, hij, hjlen, hpj⟩ := hmem p hp''
            exact ⟨j, by omega, hjlen, hpj⟩
  | case4 i ui ri gi h hg hd ih =>
    intro out hout
    rw [genLoop_emit h hg hd] at hout
    cases hrec : genLoop ts hr noise cfg u rd gd (i + 1) (ui + 2) ri gi with
    | error e => rw [hrec] at hout; cases hout
    | ok rest =>
      rw [hrec] at hout
      simp only [Except.map] at hout
      cases hout
      obtain ⟨hc, hmem⟩ := ih rest hrec
      have hhead : ∀ y ∈ (rest.map Prod.fst).head?, ts.getD i 0 ≤ y := by
        intro y hy
        cases rest with
        | nil => simp at hy
        | cons q rest' =>
          simp only [List.map_cons, List.head?_cons, Option.mem_def,
            Option.some_inj] at hy
          obtain ⟨j, hij, hjlen, hpj⟩ := hmem q (List.mem_cons_self q rest')
          have hlt := List.pairwise_iff_getElem.mp hts i j h hjlen (by omega)
          rw [← hy, hpj, List.getD_eq_getElem ts 0 h, List.getD_eq_getElem ts 0 hjlen]
          exact le_of_lt hlt
      constructor
      · rw [List.map_cons, List.chain'_cons']
        exact ⟨hhead, hc⟩
      · intro p hp
        rcases List.mem_cons.mp hp with rfl | hp'
        · exact ⟨i, le_refl i, h, rfl⟩
        · obtain ⟨j, hij, hjlen, hpj⟩ := hmem p hp'
          exact ⟨j, by omega, hjlen, hpj⟩
  | case5 i ui ri gi h =>
    intro out hout
    rw [genLoop_done h] at hout
    cases hout
    exact ⟨List.chain'_nil, fun p hp => absurd hp (List.not_mem_nil p)⟩

/-- C10: for strictly increasing input timestamps, the Device Noise Model's
emitted timestamp sequence is non-decreasing for every random outcome of
gaps and duplicates. -/
theorem C10_timestamps_monotone (ts : List Int) (hr : List ℚ) (cfg : DeviceConfig)
    (g : Nat → ℚ) (sq : ℚ) (u : Nat → ℚ) (rd : Nat → Nat) (gd : Nat → ℚ)
    (hts : ts.Pairwise (fun a b : Int => a < b)) :
    ∀ out, generate_device_data ts hr cfg g sq u rd gd = .ok out →
      (out.map Prod.fst).Chain' (fun a b : Int => a ≤ b) :=
  fun out hout =>
    (genLoop_ts_mono hts hr
      (generate_autocorrelated_noise g sq cfg.noise_std hr.length)
      cfg u rd gd 0 0 0 0 out hout).1

/-- Witness for C10 at a concrete run. -/
theorem C10_timestamps_monotone_witness :
    (([((0:Int), (100:ℚ)), ((1:Int), (100:ℚ))]).map Prod.fst).Chain'
      (fun a b : Int => a ≤ b) := by
  refine C10_timestamps_monotone [0, 1] [100, 100] ⟨0, 1, 0, 1, 0⟩ (fun _ => 0) 0
    (fun _ => 1) (fun _ => 0) (fun _ => 0) (by decide)
    [((0:Int), (100:ℚ)), ((1:Int), (100:ℚ))] ?_
  have hnoise : generate_autocorrelated_noise (fun _ => (0:ℚ)) 0 1 2 = [0, 0] := by
    norm_num [generate_autocorrelated_noise, noiseAux, List.range_succ]
  show genLoop [0, 1] [100, 100] (generate_autocorrelated_noise (fun _ => (0:ℚ)) 0 1 2)
    ⟨0, 1, 0, 1, 0⟩ (fun _ => 1) (fun _ => 0) (fun _ => 0) 0 0 0 0
      = .ok [((0:Int), (100:ℚ)), ((1:Int), (100:ℚ))]
  rw [hnoise, genLoop_emit (by norm_num) (by norm_num) (by norm_num),
    genLoop_emit (by norm_num) (by norm_num) (by norm_num),
    genLoop_done (by norm_num)]
  show Except.ok [((0:Int), clampQ 40 220 (100 + 0 + 0)),
    ((1:Int), clampQ 40 220 (100 + 0 + 0))] = _
  norm_num [clampQ]

theorem genLoop_isOk {ts : List Int} {hr noise : List ℚ} {cfg : DeviceConfig}
    {u : Nat → ℚ} {rd : Nat → Nat} {gd : Nat → ℚ}
    (hm : 1 ≤ cfg.max_gap_seconds) (i ui ri gi : Nat) :
    (genLoop ts hr noise cfg u rd gd i ui ri gi).isOk = true := by
  induction i, ui, ri, gi using genLoop.induct ts hr noise cfg u rd gd with
  | case1 i ui ri gi h hg hm' ih =>
    rw [genLoop_gap h hg hm']
    exact ih
  | case2 i ui ri gi h hg hmn =>
    exact absurd hm hmn
  | case3 i ui ri gi h hg hd ih =>
    rw [genLoop_emit_dup h hg hd]
    cases hrec : genLoop ts hr noise cfg u rd gd (i + 1) (ui + 2) ri (gi + 1) with
    | error e => rw [hrec] at ih; exact absurd ih Bool.false_ne_true
    | ok rest => rfl
  | case4 i ui ri gi h hg hd ih =>
    rw [genLoop_emit h hg hd]
    cases hrec : genLoop ts hr noise cfg u rd gd (i + 1) (ui + 2) ri gi with
    | error e => rw [hrec] at ih; exact absurd ih Bool.false_ne_true
    | ok rest => rfl
  | case5 i ui ri gi h =>
    rw [genLoop_done h]
    rfl

/-- C8 counterexample: a profile whose duplicate and gap probabilities lie
outside [0,1] is accepted without any validation error — generation proceeds
and emits data (here: a sample plus its injected duplicate). -/
theorem C8_counterexample :
    ((3:ℚ)/2 > 1) ∧
    generate_device_data [0] [100] ⟨0, 1, 0, 1, 3/2⟩ (fun _ => 0) 0 (fun _ => 1)
      (fun _ => 0) (fun _ => 0) = .ok [((0:Int), (100:ℚ)), ((0:Int), (100:ℚ))] := by
  constructor
  · norm_num
  · have hnoise : generate_autocorrelated_noise (fun _ => (0:ℚ)) 0 1 1 = [0] := by
      norm_num [generate_autocorrelated_noise, noiseAux, List.range_succ]
    show genLoop [0] [100] (generate_autocorrelated_noise (fun _ => (0:ℚ)) 0 1 1)
      ⟨0, 1, 0, 1, 3/2⟩ (fun _ => 1) (fun _ => 0) (fun _ => 0) 0 0 0 0
        = .ok [((0:Int), (100:ℚ)), ((0:Int), (100:ℚ))]
    rw [hnoise, genLoop_emit_dup (by norm_num) (by norm_num) (by norm_num),
      genLoop_done (by norm_num)]
    show Except.ok [((0:Int), clampQ 40 220 (100 + 0 + 0)),
      ((0:Int), clampQ 40 220 (clampQ 40 220 (100 + 0 + 0) + 0))] = _
    norm_num [clampQ]

/-- C8 amended: `generate_device_data` performs no configuration validation.
With `max_gap_seconds ≥ 1` it always succeeds, whatever the probability
values (out-of-range probabilities included); with `max_gap_seconds < 1` it
fails only at the moment a gap is actually drawn (Python's
`random.randint(1, m)` raising `ValueError`), not up front. -/
theorem C8_no_validation :
    (∀ (ts : List Int) (hr : List ℚ) (cfg : DeviceConfig) (g : Nat → ℚ) (sq : ℚ)
        (u : Nat → ℚ) (rd : Nat → Nat) (gd : Nat → ℚ),
      1 ≤ cfg.max_gap_seconds →
      (generate_device_data ts hr cfg g sq u rd gd).isOk = true) ∧
    (∀ (ts : List Int) (hr : List ℚ) (cfg : DeviceConfig) (g : Nat → ℚ) (sq : ℚ)
        (u : Nat → ℚ) (rd : Nat → Nat) (gd : Nat → ℚ),
      cfg.max_gap_seconds < 1 → ts ≠ [] → u 0 < cfg.gap_probability →
      generate_device_data ts hr cfg g sq u rd gd
        = .error GenError.randintEmptyRange) := by
  constructor
  · intro ts hr cfg g sq u rd gd hm
    exact genLoop_isOk hm 0 0 0 0
  · intro ts hr cfg g sq u rd gd hm hne hgap
    have h0 : 0 < ts.length := List.length_pos.mpr hne
    show genLoop ts hr (generate_autocorrelated_noise g sq cfg.noise_std hr.length)
      cfg u rd gd 0 0 0 0 = _
    exact genLoop_gap_error h0 hgap (by omega)

/-- Witness for the amended C8: out-of-range gap probability 2 still yields
a successful run when `max_gap_seconds = 5`, and with `max_gap_seconds = 0`
the failure happens only when the gap branch fires. -/
theorem C8_no_validation_witness :
    (generate_device_data [0] [100] ⟨0, 1, 2, 5, 0⟩ (fun _ => 0) 0 (fun _ => 1)
      (fun _ => 0) (fun _ => 0)).isOk = true ∧
    generate_device_data [0] [100] ⟨0, 1, 2, 0, 0⟩ (fun _ => 0) 0 (fun _ => 1)
      (fun _ => 0) (fun _ => 0) = .error GenError.randintEmptyRange :=
  ⟨C8_no_validation.1 [0] [100] ⟨0, 1, 2, 5, 0⟩ (fun _ => 0) 0 (fun _ => 1)
      (fun _ => 0) (fun _ => 0) (by norm_num),
   C8_no_validation.2 [0] [100] ⟨0, 1, 2, 0, 0⟩ (fun _ => 0) 0 (fun _ => 1)
      (fun _ => 0) (fun _ => 0) (by norm_num) (by simp) (by norm_num)⟩

/-! ## Signal Model: C9 -/

/-- C9: each Signal Model sample equals the spec's four-phase piecewise
linear-interpolation envelope of progress `i/duration` plus the variability
term `3·sin(0.1·i) + 2·sin(0.05·i)`, clamped to `[min_hr, max_hr]`. -/
theorem C9_signal_model (sn : ℚ → ℚ) (mn mx : ℚ) (start : Int) (duration : Nat)
    (i : Nat) (h : i < duration) :
    (generate_true_heart_rate sn mn mx start duration).2.getD i 0
      = clampQ mn mx (specPhaseEnvelope mn mx ((i : ℚ) / (duration : ℚ))
          + (3 * sn (0.1 * (i : ℚ)) + 2 * sn (0.05 * (i : ℚ)))) := by
  have hlen : i < ((List.range duration).map (fun j : Nat =>
      clampQ mn mx (trueHrBase mn mx ((j : ℚ) / (duration : ℚ))
        + (sn ((j : ℚ) * 0.1) * 3 + sn ((j : ℚ) * 0.05) * 2)))).length := by
    simpa using h
  show ((List.range duration).map (fun j : Nat =>
      clampQ mn mx (trueHrBase mn mx ((j : ℚ) / (duration : ℚ))
        + (sn ((j : ℚ) * 0.1) * 3 + sn ((j : ℚ) * 0.05) * 2)))).getD i 0 = _
  rw [List.getD_eq_getElem _ _ hlen, List.getElem_map, List.getElem_range]
  rw [mul_comm ((i : ℚ)) (0.1 : ℚ), mul_comm ((i : ℚ)) (0.05 : ℚ)]
  congr 1
  simp only [trueHrBase, specPhaseEnvelope, lerpQ]
  split_ifs <;> ring

/-- Witness for C9 at concrete inputs (cooldown phase, `i = 9` of 10). -/
theorem C9_signal_model_witness :
    (generate_true_heart_rate (fun x => x) 60 180 0 10).2.getD 9 0
      = clampQ 60 180 (specPhaseEnvelope 60 180 (((9:Nat) : ℚ) / ((10:Nat) : ℚ))
          + (3 * (fun x : ℚ => x) (0.1 * ((9:Nat) : ℚ))
             + 2 * (fun x : ℚ => x) (0.05 * ((9:Nat) : ℚ)))) :=
  C9_signal_model (fun x => x) 60 180 0 10 9 (by norm_num)

theorem emitVals_length (ts : List Int) (hr noise : List ℚ) (cfg : DeviceConfig) :
    (emitVals ts hr noise cfg).length = ts.length := by
  simp [emitVals]

theorem emitVals_congr {ts ts' : List Int} (hr noise : List ℚ) (cfg : DeviceConfig)
    (h : ts.length = ts'.length) :
    emitVals ts hr noise cfg = emitVals ts' hr noise cfg := by
  rw [emitVals, emitVals, h]

theorem genLoop_all_emit {ts : List Int} {hr noise : List ℚ} {cfg : DeviceConfig}
    {u : Nat → ℚ} {rd : Nat → Nat} {gd : Nat → ℚ}
    (hgap : ∀ k, ¬ u k < cfg.gap_probability)
    (hdup : ∀ k, ¬ u k < cfg.duplicate_probability) (i ui ri gi : Nat) :
    genLoop ts hr noise cfg u rd gd i ui ri gi
      = .ok ((ts.drop i).zip ((emitVals ts hr noise cfg).drop i)) := by
  induction i, ui, ri, gi using genLoop.induct ts hr noise cfg u rd gd with
  | case1 i ui ri gi h hg hm ih => exact absurd hg (hgap ui)
  | case2 i ui ri gi h hg hm => exact absurd hg (hgap ui)
  | case3 i ui ri gi h hg hd ih => exact absurd hd (hdup (ui + 1))
  | case4 i ui ri gi h hg hd ih =>
    rw [genLoop_emit h hg hd, ih]
    simp only [Except.map]
    congr 1
    have h2 : i < (emitVals ts hr noise cfg).length := by
      rw [emitVals_length]
      exact h
    rw [List.drop_eq_getElem_cons h, List.drop_eq_getElem_cons h2, List.zip_cons_cons]
    congr 2
    · exact List.getD_eq_getElem ts 0 h
    · show clampQ 40 220 (hr.getD i 0 + cfg.bias + noise.getD i 0)
        = (emitVals ts hr noise cfg).get ⟨i, h2⟩
      rw [List.get_eq_getElem]
      show _ = ((List.range ts.length).map
        (fun j => clampQ 40 220 (hr.getD j 0 + cfg.bias + noise.getD j 0))).get
          ⟨i, by simpa [emitVals_length] using h2⟩
      rw [List.get_eq_getElem, List.getElem_map, List.getElem_range]
  | case5 i ui ri gi h =>
    rw [genLoop_done h]
    rw [List.drop_eq_nil_of_le (by omega)]
    rfl

set_option maxRecDepth 8000 in
/-- C1 (refuted, code bug): with one fixed seed — one fixed draw-stream
bundle — two `generate_files` runs that differ only in their wall-clock
`datetime.now()` instants produce identical heart-rate sequences for both
devices but different timestamp sequences, so the runs are not
byte-identical.  The seed does make all random draws reproducible; the
non-determinism comes solely from `start_time = datetime.now()` in
`generate_true_heart_rate`. -/
theorem C1_now_dependence :
    ∃ p q : List (Int × ℚ) × List (Int × ℚ),
      generate_files (fun _ => 0) 0 rngOne 0 = .ok p ∧
      generate_files (fun _ => 0) 0 rngOne 1 = .ok q ∧
      p.1.map Prod.snd = q.1.map Prod.snd ∧
      p.2.map Prod.snd = q.2.map Prod.snd ∧
      p.1.map Prod.fst ≠ q.1.map Prod.fst ∧
      p.2.map Prod.fst ≠ q.2.map Prod.fst := by
  have hcfg1 : (init_device_configs rngOne.uc rngOne.rc).1
      = ⟨10, 3, 1/20, 3, 3/20⟩ := by
    norm_num [init_device_configs, uniformDraw, randintDraw, rngOne]
  have hcfg2 : (init_device_configs rngOne.uc rngOne.rc).2
      = ⟨10, 3, 1/20, 3, 3/20⟩ := by
    norm_num [init_device_configs, uniformDraw, randintDraw, rngOne]
  have hgap : ∀ k : Nat,
      ¬ ((fun _ : Nat => (1:ℚ)) k
          < (DeviceConfig.mk 10 3 (1/20) 3 (3/20)).gap_probability) := by
    intro k
    norm_num
  have hdup : ∀ k : Nat,
      ¬ ((fun _ : Nat => (1:ℚ)) k
          < (DeviceConfig.mk 10 3 (1/20) 3 (3/20)).duplicate_probability) := by
    intro k
    norm_num
  have hdev : ∀ (ts : List Int) (hr : List ℚ),
      generate_device_data ts hr ⟨10, 3, 1/20, 3, 3/20⟩ (fun _ => 0) 0 (fun _ => 1)
          (fun _ => 0) (fun _ => 0)
        = .ok (ts.zip (emitVals ts hr
            (generate_autocorrelated_noise (fun _ => 0) 0 3 hr.length)
            ⟨10, 3, 1/20, 3, 3/20⟩)) := by
    intro ts hr
    show genLoop ts hr (generate_autocorrelated_noise (fun _ => 0) 0 3 hr.length)
      ⟨10, 3, 1/20, 3, 3/20⟩ (fun _ => 1) (fun _ => 0) (fun _ => 0) 0 0 0 0 = _
    rw [genLoop_all_emit hgap hdup 0 0 0 0, List.drop_zero, List.drop_zero]
  have hfile : ∀ now : Int,
      generate_files (fun _ => 0) 0 rngOne now
        = .ok
          ((generate_true_heart_rate (fun _ => 0) 60 180 now (30*60)).1.zip
            (emitVals (generate_true_heart_rate (fun _ => 0) 60 180 now (30*60)).1
              (generate_true_heart_rate (fun _ => 0) 60 180 now (30*60)).2
              (generate_autocorrelated_noise (fun _ => 0) 0 3
                (generate_true_heart_rate (fun _ => 0) 60 180 now (30*60)).2.length)
              ⟨10, 3, 1/20, 3, 3/20⟩),
           (generate_true_heart_rate (fun _ => 0) 60 180 now (30*60)).1.zip
            (emitVals (generate_true_heart_rate (fun _ => 0) 60 180 now (30*60)).1
              (generate_true_heart_rate (fun _ => 0) 60 180 now (30*60)).2
              (generate_autocorrelated_noise (fun _ => 0) 0 3
                (generate_true_heart_rate (fun _ => 0) 60 180 now (30*60)).2.length)
              ⟨10, 3, 1/20, 3, 3/20⟩)) := by
    intro now
    simp only [generate_files]
    rw [hcfg1, hcfg2]
    simp only [rngOne]
    rw [hdev]
    rfl
  have hlenV : ∀ now : Int,
      (emitVals (generate_true_heart_rate (fun _ => 0) 60 180 now (30*60)).1
        (generate_true_heart_rate (fun _ => 0) 60 180 now (30*60)).2
        (generate_autocorrelated_noise (fun _ => 0) 0 3
          (generate_true_heart_rate (fun _ => 0) 60 180 now (30*60)).2.length)
        ⟨10, 3, 1/20, 3, 3/20⟩).length
      = (generate_true_heart_rate (fun _ => 0) 60 180 now (30*60)).1.length :=
    fun now => emitVals_length _ _ _ _
  have hts : ∀ now now' : Int,
      (generate_true_heart_rate (fun _ => 0) 60 180 now (30*60)).1.length
        = (generate_true_heart_rate (fun _ => 0) 60 180 now' (30*60)).1.length := by
    intro now now'
    simp [generate_true_heart_rate]
  have hVeq : (emitVals (generate_true_heart_rate (fun _ => 0) 60 180 0 (30*60)).1
        (generate_true_heart_rate (fun _ => 0) 60 180 0 (30*60)).2
        (generate_autocorrelated_noise (fun _ => 0) 0 3
          (generate_true_heart_rate (fun _ => 0) 60 180 0 (30*60)).2.length)
        ⟨10, 3, 1/20, 3, 3/20⟩)
      = (emitVals (generate_true_heart_rate (fun _ => 0) 60 180 1 (30*60)).1
        (generate_true_heart_rate (fun _ => 0) 60 180 1 (30*60)).2
        (generate_autocorrelated_noise (fun _ => 0) 0 3
          (generate_true_heart_rate (fun _ => 0) 60 180 1 (30*60)).2.length)
        ⟨10, 3, 1/20, 3, 3/20⟩) :=
    emitVals_congr _ _ _ (hts 0 1)
  have htsne : (generate_true_heart_rate (fun _ => 0) 60 180 0 (30*60)).1
      ≠ (generate_true_heart_rate (fun _ => 0) 60 180 1 (30*60)).1 := by
    intro h
    have e0 : ((generate_true_heart_rate (fun _ => 0) 60 180 0 (30*60)).1)[0]?
        = some 0 := by
      show (((List.range (30*60)).map (fun i : Nat => (0:Int) + (i : Int))))[0]? = some 0
      rw [List.getElem?_map, List.getElem?_range (by norm_num)]
      norm_num
    have e1 : ((generate_true_heart_rate (fun _ => 0) 60 180 1 (30*60)).1)[0]?
        = some 1 := by
      show (((List.range (30*60)).map (fun i : Nat => (1:Int) + (i : Int))))[0]? = some 1
      rw [List.getElem?_map, List.getElem?_range (by norm_num)]
      norm_num
    rw [h, e1] at e0
    exact absurd (Option.some.inj e0) (by norm_num)
  refine ⟨_, _, hfile 0, hfile 1, ?_, ?_, ?_, ?_⟩
  · show ((generate_true_heart_rate (fun _ => 0) 60 180 0 (30*60)).1.zip
        (emitVals (generate_true_heart_rate (fun _ => 0) 60 180 0 (30*60)).1
          (generate_true_heart_rate (fun _ => 0) 60 180 0 (30*60)).2
          (generate_autocorrelated_noise (fun _ => 0) 0 3
            (generate_true_heart_rate (fun _ => 0) 60 180 0 (30*60)).2.length)
          ⟨10, 3, 1/20, 3, 3/20⟩)).map Prod.snd
      = ((generate_true_heart_rate (fun _ => 0) 60 180 1 (30*60)).1.zip
        (emitVals (generate_true_heart_rate (fun _ => 0) 60 180 1 (30*60)).1
          (generate_true_heart_rate (fun _ => 0) 60 180 1 (30*60)).2
          (generate_autocorrelated_noise (fun _ => 0) 0 3
            (generate_true_heart_rate (fun _ => 0) 60 180 1 (30*60)).2.length)
          ⟨10, 3, 1/20, 3, 3/20⟩)).map Prod.snd
    rw [List.map_snd_zip _ _ (le_of_eq (hlenV 0)),
      List.map_snd_zip _ _ (le_of_eq (hlenV 1))]
    exact hVeq
  · show ((generate_true_heart_rate (fun _ => 0) 60 180 0 (30*60)).1.zip
        (emitVals (generate_true_heart_rate (fun _ => 0) 60 180 0 (30*60)).1
          (generate_true_heart_rate (fun _ => 0) 60 180 0 (30*60)).2
          (generate_autocorrelated_noise (fun _ => 0) 0 3
            (generate_true_heart_rate (fun _ => 0) 60 180 0 (30*60)).2.length)
          ⟨10, 3, 1/20, 3, 3/20⟩)).map Prod.snd
      = ((generate_true_heart_rate (fun _ => 0) 60 180 1 (30*60)).1.zip
        (emitVals (generate_true_heart_rate (fun _ => 0) 60 180 1 (30*60)).1
          (generate_true_heart_rate (fun _ => 0) 60 180 1 (30*60)).2
          (generate_autocorrelated_noise (fun _ => 0) 0 3
            (generate_true_heart_rate (fun _ => 0) 60 180 1 (30*60)).2.length)
          ⟨10, 3, 1/20, 3, 3/20⟩)).map Prod.snd
    rw [List.map_snd_zip _ _ (le_of_eq (hlenV 0)),
      List.map_snd_zip _ _ (le_of_eq (hlenV 1))]
    exact hVeq
  · show ((generate_true_heart_rate (fun _ => 0) 60 180 0 (30*60)).1.zip
        (emitVals (generate_true_heart_rate (fun _ => 0) 60 180 0 (30*60)).1
          (generate_true_heart_rate (fun _ => 0) 60 180 0 (30*60)).2
          (generate_autocorrelated_noise (fun _ => 0) 0 3
            (generate_true_heart_rate (fun _ => 0) 60 180 0 (30*60)).2.length)
          ⟨10, 3, 1/20, 3, 3/20⟩)).map Prod.fst
      ≠ ((generate_true_heart_rate (fun _ => 0) 60 180 1 (30*60)).1.zip
        (emitVals (generate_true_heart_rate (fun _ => 0) 60 180 1 (30*60)).1
          (generate_true_heart_rate (fun _ => 0) 60 180 1 (30*60)).2
          (generate_autocorrelated_noise (fun _ => 0) 0 3
            (generate_true_heart_rate (fun _ => 0) 60 180 1 (30*60)).2.length)
          ⟨10, 3, 1/20, 3, 3/20⟩)).map Prod.fst
    rw [List.map_fst_zip _ _ (le_of_eq (hlenV 0).symm),
      List.map_fst_zip _ _ (le_of_eq (hlenV 1).symm)]
    exact htsne
  · show ((generate_true_heart_rate (fun _ => 0) 60 180 0 (30*60)).1.zip
        (emitVals (generate_true_heart_rate (fun _ => 0) 60 180 0 (30*60)).1
          (generate_true_heart_rate (fun _ => 0) 60 180 0 (30*60)).2
          (generate_autocorrelated_noise (fun _ => 0) 0 3
            (generate_true_heart_rate (fun _ => 0) 60 180 0 (30*60)).2.length)
          ⟨10, 3, 1/20, 3, 3/20⟩)).map Prod.fst
      ≠ ((generate_true_heart_rate (fun _ => 0) 60 180 1 (30*60)).1.zip
        (emitVals (generate_true_heart_rate (fun _ => 0) 60 180 1 (30*60)).1
          (generate_true_heart_rate (fun _ => 0) 60 180 1 (30*60)).2
          (generate_autocorrelated_noise (fun _ => 0) 0 3
            (generate_true_heart_rate (fun _ => 0) 60 180 1 (30*60)).2.length)
          ⟨10, 3, 1/20, 3, 3/20⟩)).map Prod.fst
    rw [List.map_fst_zip _ _ (le_of_eq (hlenV 0).symm),
      List.map_fst_zip _ _ (le_of_eq (hlenV 1).symm)]
    exact htsne
